import Mathlib

/-!
Shallow embedding of the CitizenAI core from src/app.py.

The embedded pieces are the three methods of class CitizenAI that carry the
custom logic: analyze_sentiment (rule-based sentiment scorer),
get_conversation_history (history renderer) and generate_response (the
history-appending wrapper around the external inference call, whose outcome
is modelled as an Except parameter).  Text is modelled as List Char, Python
float division as exact division in ℚ.
-/

/-- Python is-whitespace test used by str.strip and str.split, restricted to
the ASCII whitespace characters. -/
def pyIsSpace (c : Char) : Bool :=
  c == ' ' || c == '\t' || c == '\n' || c == '\r' || c == '\x0B' || c == '\x0C'

/-- Drop leading whitespace characters. -/
def pyDropSpaces : List Char → List Char
  | [] => []
  | c :: cs => if pyIsSpace c then pyDropSpaces cs else c :: cs

/-- Python str.strip with no argument: drop leading and trailing whitespace. -/
def pyStrip (s : List Char) : List Char :=
  (pyDropSpaces (pyDropSpaces s).reverse).reverse

/-- Helper for pySplit: acc holds the current (reversed) in-progress token. -/
def pySplitAux : List Char → List Char → List (List Char)
  | [], acc => if acc.isEmpty then [] else [acc.reverse]
  | c :: cs, acc =>
    if pyIsSpace c then
      (if acc.isEmpty then pySplitAux cs [] else acc.reverse :: pySplitAux cs [])
    else
      pySplitAux cs (c :: acc)

/-- Python str.split with no argument: the maximal runs of non-whitespace
characters, in order; empty tokens never occur. -/
def pySplit (s : List Char) : List (List Char) :=
  pySplitAux s []

/-- Does the pattern occur at the start of the second list? -/
def startsWithL : List Char → List Char → Bool
  | [], _ => true
  | _ :: _, [] => false
  | c :: p, d :: s => c == d && startsWithL p s

/-- Python substring membership test, the expression pat in hay on strings:
true when pat occurs contiguously somewhere in hay (always true for an
empty pattern). -/
def pyIn (pat : List Char) : List Char → Bool
  | [] => startsWithL pat []
  | c :: rest => startsWithL pat (c :: rest) || pyIn pat rest

/-- The positive lexicon of src/app.py lines 73-78, in source order. -/
def positive_words : List (List Char) :=
  ["good".toList, "great".toList, "excellent".toList, "amazing".toList,
   "wonderful".toList, "fantastic".toList, "satisfied".toList, "happy".toList,
   "pleased".toList, "improved".toList, "better".toList, "thanks".toList,
   "thank you".toList, "helpful".toList, "efficient".toList, "quick".toList,
   "fast".toList, "love".toList, "appreciate".toList, "perfect".toList,
   "outstanding".toList, "brilliant".toList]

/-- The negative lexicon of src/app.py lines 80-85, in source order. -/
def negative_words : List (List Char) :=
  ["bad".toList, "terrible".toList, "awful".toList, "horrible".toList,
   "disappointed".toList, "angry".toList, "frustrated".toList, "poor".toList,
   "worse".toList, "broken".toList, "issue".toList, "problem".toList,
   "slow".toList, "delay".toList, "complaint".toList, "not working".toList,
   "hate".toList, "worst".toList, "useless".toList, "waste".toList,
   "disgusting".toList, "annoying".toList]

/-- The fields computed by analyze_sentiment for a non-empty input (the
SentimentResult of the spec).  confidence is the exact value of the Python
float division. -/
structure SentimentResult where
  sentiment : String
  confidence : ℚ
  positive_count : ℕ
  negative_count : ℕ
  word_count : ℕ
  deriving Repr, DecidableEq

/-- The two possible outcomes of analyze_sentiment: the guidance notice for
blank input, or a computed result. -/
inductive ScoreOutcome where
  | notice (msg : String)
  | result (r : SentimentResult)
  deriving Repr, DecidableEq

/-- The counting expression of src/app.py lines 88-89:
sum(1 for word in lex if word in hay). -/
def countMatches (lex : List (List Char)) (hay : List Char) : ℕ :=
  (lex.map (fun w => if pyIn w hay then 1 else 0)).sum

/-- text.lower() of src/app.py line 87. -/
def lowered (text : List Char) : List Char :=
  text.map Char.toLower

/-- The label selection of src/app.py lines 91-99. -/
def sentimentLabel (positive_count negative_count : ℕ) : String :=
  if positive_count > negative_count then "Positive"
  else if negative_count > positive_count then "Negative"
  else "Neutral"

/-- The SentimentResult computed by src/app.py lines 87-112 for a non-blank
input: the counts of lines 88-89, the label of lines 91-99, the confidence
of line 101 and the word count len(text.split()) of line 112. -/
def scoreFields (text : List Char) : SentimentResult :=
  ⟨sentimentLabel (countMatches positive_words (lowered text))
      (countMatches negative_words (lowered text)),
   (max (countMatches positive_words (lowered text))
      (countMatches negative_words (lowered text)) : ℚ) /
      (((pySplit text).length : ℚ) + 1),
   countMatches positive_words (lowered text),
   countMatches negative_words (lowered text),
   (pySplit text).length⟩

/-- CitizenAI.analyze_sentiment, src/app.py lines 68-117, up to the final
f-string rendering: blank input yields the notice of line 71, otherwise the
fields of scoreFields are computed. -/
def analyze_sentiment (text : List Char) : ScoreOutcome :=
  if (pyStrip text).isEmpty then
    ScoreOutcome.notice "Please enter some text to analyze."
  else
    ScoreOutcome.result (scoreFields text)

/-- One entry of CitizenAI.conversation_history (src/app.py lines 57-61). -/
structure InteractionRecord where
  timestamp : String
  user_input : String
  ai_response : String
  deriving Repr, DecidableEq

/-- The block rendered for one history entry at 1-based position i
(src/app.py lines 126-128). -/
def renderRecord (i : ℕ) (conv : InteractionRecord) : String :=
  "**" ++ toString i ++ ".** [" ++ conv.timestamp ++ "]\n" ++
    "👤 **You:** " ++ conv.user_input ++ "\n" ++
    "🤖 **Citizen AI:** " ++ conv.ai_response ++ "\n\n"

/-- The enumerate loop of src/app.py line 125: render the records in order,
numbering from i. -/
def renderFrom (i : ℕ) : List InteractionRecord → String
  | [] => ""
  | conv :: rest => renderRecord i conv ++ renderFrom (i + 1) rest

/-- CitizenAI.get_conversation_history, src/app.py lines 119-130: the empty
log yields a fixed message, otherwise the last 10 records (a hard-coded
window) are rendered in chronological order numbered from 1. -/
def get_conversation_history (hist : List InteractionRecord) : String :=
  if hist.isEmpty then
    "📝 No conversation history yet."
  else
    "**📝 Conversation History:**\n\n" ++ renderFrom 1 (hist.drop (hist.length - 10))

/-- Modelled from the spec: render_recent(limit) of spec section 4.2, the
renderer with a caller-visible limit parameter (default 10) selecting the
last limit records.  The source method takes no such parameter; this
definition follows the spec wording for comparison with
get_conversation_history. -/
def render_recent (limit : ℕ) (hist : List InteractionRecord) : String :=
  if hist.isEmpty then
    "📝 No conversation history yet."
  else
    "**📝 Conversation History:**\n\n" ++ renderFrom 1 (hist.drop (hist.length - limit))

/-- CitizenAI.generate_response, src/app.py lines 33-66.  The external
inference call (client construction through response_text extraction) is a
parameter: ok resp when it yields a response string, error e when any step
of it raises, e being str(e).  The timestamp is likewise a parameter.  On
success the record is appended and the response returned; on failure the
history is untouched and the Error string returned. -/
def generate_response (callResult : Except String String) (ts user_input : String)
    (hist : List InteractionRecord) : List InteractionRecord × String :=
  match callResult with
  | Except.ok response_text => (hist ++ [⟨ts, user_input, response_text⟩], response_text)
  | Except.error e => (hist, "Error: " ++ e)

/-- The operations of the core that can observe or change the conversation
log. -/
inductive CoreOp where
  | gen (callResult : Except String String) (ts user_input : String)
  | score (text : List Char)
  | renderHistory

/-- What a core operation returns to its caller. -/
inductive CoreOutput where
  | text (s : String)
  | scored (o : ScoreOutcome)

/-- One call into the core: the new conversation log paired with the output.
analyze_sentiment and get_conversation_history read no state and assign
nothing in the source, so they leave the log exactly as given. -/
def coreStep : CoreOp → List InteractionRecord → List InteractionRecord × CoreOutput
  | CoreOp.gen res ts ui, hist =>
      ((generate_response res ts ui hist).1, CoreOutput.text (generate_response res ts ui hist).2)
  | CoreOp.score t, hist => (hist, CoreOutput.scored (analyze_sentiment t))
  | CoreOp.renderHistory, hist => (hist, CoreOutput.text (get_conversation_history hist))

/-- The spec-side count: the number of distinct lexicon entries that occur
at least once as a substring of hay. -/
def distinctMatched (lex : List (List Char)) (hay : List Char) : ℕ :=
  (lex.toFinset.filter (fun w => pyIn w hay)).card

/-! Lemmas. -/

/-- The indicator sum over a list is the length of its filtered sublist. -/
theorem countMatches_eq_length_filter (lex : List (List Char)) (hay : List Char) :
    countMatches lex hay = (lex.filter (fun w => pyIn w hay)).length := by
  induction lex with
  | nil => rfl
  | cons w ws ih =>
      simp only [countMatches, List.map_cons, List.sum_cons, List.filter_cons] at ih ⊢
      by_cases h : pyIn w hay
      · simp only [h, if_pos, List.length_cons, ih]
        omega
      · simp [h, ih]

/-- The 22 positive lexicon entries are pairwise distinct. -/
theorem positive_words_nodup : positive_words.Nodup := by decide

/-- The 22 negative lexicon entries are pairwise distinct. -/
theorem negative_words_nodup : negative_words.Nodup := by decide

/-- On a duplicate-free lexicon the code's indicator sum is the number of
distinct matched entries. -/
theorem countMatches_eq_distinctMatched (lex : List (List Char)) (hay : List Char)
    (h : lex.Nodup) : countMatches lex hay = distinctMatched lex hay := by
  rw [countMatches_eq_length_filter, distinctMatched, ← List.toFinset_filter,
    List.toFinset_card_of_nodup (h.filter _)]

/-- The indicator sum never exceeds the lexicon size. -/
theorem countMatches_le (lex : List (List Char)) (hay : List Char) :
    countMatches lex hay ≤ lex.length := by
  rw [countMatches_eq_length_filter]
  exact List.length_filter_le _ _

/-- Any result returned by analyze_sentiment carries exactly the fields of
scoreFields. -/
theorem analyze_result_eq {text : List Char} {r : SentimentResult}
    (h : analyze_sentiment text = ScoreOutcome.result r) : r = scoreFields text := by
  unfold analyze_sentiment at h
  by_cases he : (pyStrip text).isEmpty <;> simp [he] at h
  exact h.symm

/-- The sentiment field of scoreFields. -/
theorem scoreFields_sentiment (text : List Char) :
    (scoreFields text).sentiment =
      sentimentLabel (countMatches positive_words (lowered text))
        (countMatches negative_words (lowered text)) := by
  simp only [scoreFields]

/-- The confidence field of scoreFields. -/
theorem scoreFields_confidence (text : List Char) :
    (scoreFields text).confidence =
      (max (countMatches positive_words (lowered text))
        (countMatches negative_words (lowered text)) : ℚ) /
        (((pySplit text).length : ℚ) + 1) := by
  simp only [scoreFields]

/-- The positive_count field of scoreFields. -/
theorem scoreFields_positive_count (text : List Char) :
    (scoreFields text).positive_count = countMatches positive_words (lowered text) := by
  simp only [scoreFields]

/-- The negative_count field of scoreFields. -/
theorem scoreFields_negative_count (text : List Char) :
    (scoreFields text).negative_count = countMatches negative_words (lowered text) := by
  simp only [scoreFields]

/-- The word_count field of scoreFields. -/
theorem scoreFields_word_count (text : List Char) :
    (scoreFields text).word_count = (pySplit text).length := by
  simp only [scoreFields]

/-- The first branch of the label selection. -/
theorem sentimentLabel_pos {pc nc : ℕ} (h : nc < pc) : sentimentLabel pc nc = "Positive" := by
  unfold sentimentLabel
  rw [if_pos h]

/-- The second branch of the label selection. -/
theorem sentimentLabel_neg {pc nc : ℕ} (h : pc < nc) : sentimentLabel pc nc = "Negative" := by
  unfold sentimentLabel
  rw [if_neg (by omega), if_pos h]

/-- The tie branch of the label selection. -/
theorem sentimentLabel_neutral {pc nc : ℕ} (h : pc = nc) :
    sentimentLabel pc nc = "Neutral" := by
  unfold sentimentLabel
  rw [if_neg (by omega), if_neg (by omega)]

/-! Claim theorems. -/

/-- C1: for every non-blank input, the label is Positive when
positive_count > negative_count, Negative when
negative_count > positive_count, and Neutral whenever the two counts are
equal, including when both are zero. -/
theorem analyze_sentiment_label_policy (text : List Char) (r : SentimentResult)
    (h : analyze_sentiment text = ScoreOutcome.result r) :
    (r.negative_count < r.positive_count → r.sentiment = "Positive") ∧
    (r.positive_count < r.negative_count → r.sentiment = "Negative") ∧
    (r.positive_count = r.negative_count → r.sentiment = "Neutral") := by
  obtain rfl := analyze_result_eq h
  rw [scoreFields_sentiment, scoreFields_positive_count, scoreFields_negative_count]
  exact ⟨fun hlt => sentimentLabel_pos hlt, fun hlt => sentimentLabel_neg hlt,
    fun heq => sentimentLabel_neutral heq⟩

/-- C1 witness: on input "good" the counts are 1 and 0 and the label is
Positive. -/
theorem analyze_sentiment_label_policy_witness :
    (scoreFields "good".toList).sentiment = "Positive" :=
  (analyze_sentiment_label_policy "good".toList (scoreFields "good".toList) rfl).1
    (by decide)

/-- C2: each count is the number of distinct lexicon entries occurring as a
substring of the lower-cased text, and both are bounded by 22. -/
theorem analyze_sentiment_counts_distinct_membership (text : List Char)
    (r : SentimentResult) (h : analyze_sentiment text = ScoreOutcome.result r) :
    r.positive_count = distinctMatched positive_words (lowered text) ∧
    r.negative_count = distinctMatched negative_words (lowered text) ∧
    r.positive_count ≤ 22 ∧ r.negative_count ≤ 22 := by
  obtain rfl := analyze_result_eq h
  rw [scoreFields_positive_count, scoreFields_negative_count]
  exact ⟨countMatches_eq_distinctMatched _ _ positive_words_nodup,
    countMatches_eq_distinctMatched _ _ negative_words_nodup,
    (countMatches_le _ _).trans (by decide),
    (countMatches_le _ _).trans (by decide)⟩

/-- C2 witness: on input "good good good" the repeated entry counts once,
positive_count is 1 and agrees with the distinct-membership count. -/
theorem analyze_sentiment_counts_distinct_membership_witness :
    (scoreFields "good good good".toList).positive_count = 1 ∧
    (scoreFields "good good good".toList).positive_count =
      distinctMatched positive_words (lowered "good good good".toList) ∧
    (scoreFields "good good good".toList).positive_count ≤ 22 :=
  ⟨by decide,
   (analyze_sentiment_counts_distinct_membership "good good good".toList
     (scoreFields "good good good".toList) rfl).1,
   (analyze_sentiment_counts_distinct_membership "good good good".toList
     (scoreFields "good good good".toList) rfl).2.2.1⟩

/-- C3: for every non-blank input the confidence equals
max(positive_count, negative_count) / (word_count + 1), word_count being the
number of whitespace-delimited tokens of the original text, and the +1 keeps
the denominator positive on every input. -/
theorem analyze_sentiment_confidence_formula (text : List Char)
    (r : SentimentResult) (h : analyze_sentiment text = ScoreOutcome.result r) :
    r.confidence =
      (max r.positive_count r.negative_count : ℚ) / ((r.word_count : ℚ) + 1) ∧
    r.word_count = (pySplit text).length ∧
    (0 : ℚ) < (r.word_count : ℚ) + 1 := by
  obtain rfl := analyze_result_eq h
  rw [scoreFields_confidence, scoreFields_positive_count, scoreFields_negative_count,
    scoreFields_word_count]
  refine ⟨rfl, rfl, ?_⟩
  positivity

/-- C3 witness: on input "slow slow" the counts are 0 and 1, the word count
is 2 and the confidence is 1/3 = max(0,1)/(2+1). -/
theorem analyze_sentiment_confidence_formula_witness :
    (scoreFields "slow slow".toList).confidence = 1 / 3 ∧
    (scoreFields "slow slow".toList).confidence =
      (max (scoreFields "slow slow".toList).positive_count
        (scoreFields "slow slow".toList).negative_count : ℚ) /
        (((scoreFields "slow slow".toList).word_count : ℚ) + 1) := by
  have hp : countMatches positive_words (lowered "slow slow".toList) = 0 := by decide
  have hn : countMatches negative_words (lowered "slow slow".toList) = 1 := by decide
  have hw : (pySplit "slow slow".toList).length = 2 := by decide
  refine ⟨?_, (analyze_sentiment_confidence_formula "slow slow".toList
    (scoreFields "slow slow".toList) rfl).1⟩
  rw [scoreFields_confidence, hp, hn, hw]
  norm_num

/-- C4 counterexample: on the one-word input "goodgreatlove" three positive
entries match, so the confidence is 3/2, which is not in [0, 1]. -/
theorem confidence_exceeds_one_counterexample :
    analyze_sentiment "goodgreatlove".toList =
      ScoreOutcome.result (scoreFields "goodgreatlove".toList) ∧
    (scoreFields "goodgreatlove".toList).confidence = 3 / 2 ∧
    ¬((scoreFields "goodgreatlove".toList).confidence ≤ 1) := by
  have hp : countMatches positive_words (lowered "goodgreatlove".toList) = 3 := by decide
  have hn : countMatches negative_words (lowered "goodgreatlove".toList) = 0 := by decide
  have hw : (pySplit "goodgreatlove".toList).length = 1 := by decide
  have hc : (scoreFields "goodgreatlove".toList).confidence = 3 / 2 := by
    rw [scoreFields_confidence, hp, hn, hw]
    norm_num
  refine ⟨rfl, hc, ?_⟩
  rw [hc]
  norm_num

/-- C4 amended: the confidence is nonnegative for every input, equals 0
exactly when both counts are 0, and is bounded by 22; the upper bound 1 of
the claim does not hold in general. -/
theorem analyze_sentiment_confidence_bounds (text : List Char) (r : SentimentResult)
    (h : analyze_sentiment text = ScoreOutcome.result r) :
    0 ≤ r.confidence ∧
    (r.confidence = 0 ↔ r.positive_count = 0 ∧ r.negative_count = 0) ∧
    r.confidence ≤ 22 := by
  obtain rfl := analyze_result_eq h
  rw [scoreFields_confidence, scoreFields_positive_count, scoreFields_negative_count]
  refine ⟨by positivity, ?_, ?_⟩
  · rw [div_eq_zero_iff]
    constructor
    · rintro (h0 | h0)
      · rw [← Nat.cast_max, Nat.cast_eq_zero] at h0
        exact ⟨Nat.le_zero.mp (h0 ▸ Nat.le_max_left _ _),
          Nat.le_zero.mp (h0 ▸ Nat.le_max_right _ _)⟩
      · exact absurd h0 (by positivity)
    · rintro ⟨h1, h2⟩
      rw [h1, h2]
      norm_num
  · have h22 : (max (countMatches positive_words (lowered text))
        (countMatches negative_words (lowered text)) : ℚ) ≤ 22 := by
      have : max (countMatches positive_words (lowered text))
          (countMatches negative_words (lowered text)) ≤ 22 :=
        max_le ((countMatches_le _ _).trans (by decide))
          ((countMatches_le _ _).trans (by decide))
      exact_mod_cast this
    rw [div_le_iff₀ (by positivity)]
    have hnn : (0 : ℚ) ≤ ((pySplit text).length : ℚ) := by positivity
    nlinarith

/-- C4 amended witness: on input "bad" the confidence is 1/2, which is
nonnegative, nonzero (negative_count is 1) and at most 22. -/
theorem analyze_sentiment_confidence_bounds_witness :
    (scoreFields "bad".toList).confidence = 1 / 2 ∧
    0 ≤ (scoreFields "bad".toList).confidence ∧
    ((scoreFields "bad".toList).confidence = 0 ↔
      (scoreFields "bad".toList).positive_count = 0 ∧
      (scoreFields "bad".toList).negative_count = 0) ∧
    (scoreFields "bad".toList).confidence ≤ 22 := by
  have hp : countMatches positive_words (lowered "bad".toList) = 0 := by decide
  have hn : countMatches negative_words (lowered "bad".toList) = 1 := by decide
  have hw : (pySplit "bad".toList).length = 1 := by decide
  refine ⟨?_, (analyze_sentiment_confidence_bounds "bad".toList _ rfl).1,
    (analyze_sentiment_confidence_bounds "bad".toList _ rfl).2.1,
    (analyze_sentiment_confidence_bounds "bad".toList _ rfl).2.2⟩
  rw [scoreFields_confidence, hp, hn, hw]
  norm_num

/-- C5: the notice is returned exactly when the trimmed input is empty, a
result record is returned otherwise, and the only notice ever returned is
the fixed guidance string; the function is total, so no input raises. -/
theorem analyze_sentiment_empty_input (text : List Char) :
    ((pyStrip text).isEmpty = true →
      analyze_sentiment text = ScoreOutcome.notice "Please enter some text to analyze.") ∧
    ((pyStrip text).isEmpty = false →
      analyze_sentiment text = ScoreOutcome.result (scoreFields text)) ∧
    (∀ msg, analyze_sentiment text = ScoreOutcome.notice msg →
      (pyStrip text).isEmpty = true ∧ msg = "Please enter some text to analyze.") := by
  unfold analyze_sentiment
  by_cases he : (pyStrip text).isEmpty = true
  · simp [he]
  · simp [he]

/-- C5 witness: the all-whitespace input "   " yields the notice. -/
theorem analyze_sentiment_empty_input_witness :
    analyze_sentiment "   ".toList =
      ScoreOutcome.notice "Please enter some text to analyze." :=
  (analyze_sentiment_empty_input "   ".toList).1 (by decide)

/-- C6 counterexample: the source renderer takes no limit argument; called
on a two-record log it renders both records, not the single most recent one
that render_recent with limit 1 would select, so no caller-chosen limit k
governs its window. -/
theorem render_recent_limit_counterexample :
    get_conversation_history
        [⟨"t1", "u1", "a1"⟩, ⟨"t2", "u2", "a2"⟩] =
      "**📝 Conversation History:**\n\n" ++
        renderFrom 1 [⟨"t1", "u1", "a1"⟩, ⟨"t2", "u2", "a2"⟩] ∧
    get_conversation_history
        [⟨"t1", "u1", "a1"⟩, ⟨"t2", "u2", "a2"⟩] ≠
      render_recent 1 [⟨"t1", "u1", "a1"⟩, ⟨"t2", "u2", "a2"⟩] := by
  refine ⟨rfl, ?_⟩
  decide

/-- C6 amended: the window size is fixed at 10, not caller-chosen: the
renderer behaves exactly as render_recent with limit 10, the rendered
window is the suffix of the log of length min(N, 10) (so all N records when
N is at most 10, the last 10 otherwise), in original chronological order
numbered from 1. -/
theorem get_conversation_history_fixed_window (hist : List InteractionRecord)
    (h : hist ≠ []) :
    get_conversation_history hist = render_recent 10 hist ∧
    get_conversation_history hist =
      "**📝 Conversation History:**\n\n" ++
        renderFrom 1 (hist.drop (hist.length - 10)) ∧
    (hist.drop (hist.length - 10)).length = min hist.length 10 ∧
    hist.take (hist.length - 10) ++ hist.drop (hist.length - 10) = hist := by
  have he : hist.isEmpty = false := by
    cases hist with
    | nil => exact absurd rfl h
    | cons a l => rfl
  refine ⟨rfl, ?_, ?_, List.take_append_drop _ _⟩
  · simp [get_conversation_history, he]
  · rw [List.length_drop]
    omega

/-- A one-record log used as a concrete witness input. -/
def sampleLog : List InteractionRecord :=
  [⟨"t", "u", "a"⟩]

/-- C6 amended witness: on a one-record log the renderer agrees with
render_recent at limit 10 and shows the whole (one-record) window. -/
theorem get_conversation_history_fixed_window_witness :
    get_conversation_history sampleLog = render_recent 10 sampleLog ∧
    get_conversation_history sampleLog =
      "**📝 Conversation History:**\n\n" ++
        renderFrom 1 (sampleLog.drop (sampleLog.length - 10)) ∧
    (sampleLog.drop (sampleLog.length - 10)).length = min sampleLog.length 10 ∧
    sampleLog.take (sampleLog.length - 10) ++
      sampleLog.drop (sampleLog.length - 10) = sampleLog :=
  get_conversation_history_fixed_window sampleLog (List.cons_ne_nil _ _)

/-- C7: the empty log yields the fixed no-history message, which is a
non-empty string, not an error. -/
theorem get_conversation_history_empty :
    get_conversation_history [] = "📝 No conversation history yet." ∧
    get_conversation_history [] ≠ "" := by
  refine ⟨rfl, ?_⟩
  decide

/-- C8: every core operation either leaves the conversation log unchanged
or appends exactly one record at its end; the scoring and rendering
operations never change it.  Existing records are thus never reordered,
edited or deleted. -/
theorem conversation_log_append_only (op : CoreOp) (hist : List InteractionRecord) :
    ((coreStep op hist).1 = hist ∨ ∃ r, (coreStep op hist).1 = hist ++ [r]) ∧
    (∀ t, (coreStep (CoreOp.score t) hist).1 = hist) ∧
    (coreStep CoreOp.renderHistory hist).1 = hist := by
  refine ⟨?_, fun t => rfl, rfl⟩
  cases op with
  | gen res ts ui =>
      cases res with
      | ok resp => exact Or.inr ⟨⟨ts, ui, resp⟩, rfl⟩
      | error e => exact Or.inl rfl
  | score t => exact Or.inl rfl
  | renderHistory => exact Or.inl rfl

/-- C9: on the input "Thank you for the excellent customer service today."
the label is Positive, at least two positive entries match (thank you and
excellent give exactly 2) and no negative entry matches. -/
theorem analyze_sentiment_thank_you_example :
    analyze_sentiment "Thank you for the excellent customer service today.".toList =
      ScoreOutcome.result
        (scoreFields "Thank you for the excellent customer service today.".toList) ∧
    (scoreFields "Thank you for the excellent customer service today.".toList).sentiment =
      "Positive" ∧
    2 ≤ (scoreFields
      "Thank you for the excellent customer service today.".toList).positive_count ∧
    (scoreFields
      "Thank you for the excellent customer service today.".toList).negative_count = 0 := by
  refine ⟨rfl, ?_, ?_, ?_⟩ <;> decide

/-- C10: generate_response is total; when the inference call raises it
returns the Error-prefixed string and leaves the history unchanged, and
when it succeeds it appends exactly one record with the timestamp, user
input and response text, returning the response text. -/
theorem generate_response_contract (res : Except String String) (ts ui : String)
    (hist : List InteractionRecord) :
    (∀ e, res = Except.error e →
      generate_response res ts ui hist = (hist, "Error: " ++ e)) ∧
    (∀ resp, res = Except.ok resp →
      generate_response res ts ui hist = (hist ++ [⟨ts, ui, resp⟩], resp)) := by
  constructor
  · intro e hres
    subst hres
    rfl
  · intro resp hres
    subst hres
    rfl

/-- C10 witness: a failing call leaves an empty history empty and returns
the Error string; a succeeding call appends the one record and returns the
response. -/
theorem generate_response_contract_witness :
    generate_response (Except.error "boom") "ts" "ui" [] = ([], "Error: boom") ∧
    generate_response (Except.ok "hello") "ts" "ui" [] =
      ([⟨"ts", "ui", "hello"⟩], "hello") :=
  ⟨(generate_response_contract (Except.error "boom") "ts" "ui" []).1 "boom" rfl,
   (generate_response_contract (Except.ok "hello") "ts" "ui" []).2 "hello" rfl⟩
